import Mathlib

/-!
Verification of the SwasthyaSathi backend document pipeline and auth services.

The definitions below are a shallow embedding of the TypeScript sources:
  - DocumentService (upload / update / delete / storage quota / background
    OCR and AI enrichment writes),
  - S3Service (object upload returning the byte length of the input buffer),
  - OcrService (post-processing of the external vision engine's response),
  - AuthService (phone/password validation, register, login).

External collaborators (the database, the object store, the vision engine,
the language model, the password hasher) are modelled as explicit state or
as input parameters; machine numbers are Nat/Int; JavaScript truthiness of
strings is modelled explicitly.
-/

namespace SS

/-- JavaScript `a || b` for a possibly-absent string: `undefined`, `null`
and the empty string all fall through to the default. -/
def jsOr (s : Option String) (d : String) : String :=
  match s with
  | some t => if t = "" then d else t
  | none => d

/-- JavaScript `a || null` for a possibly-absent string: the empty string
is coerced to `null` (modelled as `none`). -/
def jsOrNull (s : Option String) : Option String :=
  match s with
  | some t => if t = "" then none else some t
  | none => none

/-- JavaScript truthiness of a nullable string column. -/
def jsTruthyStr (s : Option String) : Bool :=
  match s with
  | some t => t ≠ ""
  | none => false

/-- Fuelled integer base-1024 logarithm; with fuel at least `log n + 1`
this equals `Math.floor(Math.log n / Math.log 1024)` on exact reals. -/
def log1024Fuel : Nat → Nat → Nat
  | 0, _ => 0
  | fuel + 1, n => if n < 1024 then 0 else log1024Fuel fuel (n / 1024) + 1

/-- `Math.floor(Math.log bytes / Math.log 1024)`; fuel 200 covers every
value representable as a JavaScript number (all below 1024 ^ 200). -/
def jsLog1024 (n : Nat) : Nat :=
  log1024Fuel 200 n

/-- `Math.round (a / b)` for nonnegative operands: round half away from
zero, computed exactly on naturals. -/
def jsRoundDiv (a b : Nat) : Nat :=
  (2 * a + b) / (2 * b)

/-- Render a quantity of hundredths the way JavaScript prints
`Math.round (x * 100) / 100`: no trailing zero decimals. -/
def renderHundredths (scaled : Nat) : String :=
  if scaled % 100 = 0 then
    toString (scaled / 100)
  else if scaled % 10 = 0 then
    toString (scaled / 100) ++ "." ++ toString ((scaled / 10) % 10)
  else
    toString (scaled / 100) ++ "." ++ toString ((scaled % 100) / 10) ++ toString (scaled % 10)

def sizeUnits : List String := ["Bytes", "KB", "MB", "GB"]

/-- `DocumentService.formatFileSize`. A negative argument (possible for a
negative remaining quota) follows JavaScript's `Math.log` of a negative
number, which yields `NaN` and prints as `NaN undefined`. -/
def formatFileSize (bytes : Int) : String :=
  if bytes = 0 then "0 Bytes"
  else if bytes < 0 then "NaN undefined"
  else
    let n := bytes.toNat
    let i := jsLog1024 n
    renderHundredths (jsRoundDiv (n * 100) (1024 ^ i)) ++ " " ++ sizeUnits.getD i "undefined"

/-! ## Data model -/

/-- Error codes from the shared `ErrorCode` enum (the ones reachable from
the embedded services). -/
inductive ErrCode where
  | NOT_FOUND
  | VALIDATION_ERROR
  | SERVER_ERROR
  | DUPLICATE_PHONE
  | INVALID_CREDENTIALS
  | WEAK_PASSWORD
  | FILE_TOO_LARGE
  | UNSUPPORTED_FILE_TYPE
  | STORAGE_QUOTA_EXCEEDED
  deriving DecidableEq, Repr

/-- `ApiResponse<T>`: either `{success:true, data}` or
`{success:false, error:{code, message}}`. -/
inductive ApiResp (α : Type) where
  | ok (data : α)
  | err (code : ErrCode) (message : String)
  deriving DecidableEq, Repr

/-- A row of the `users` table (the columns the document pipeline touches).
`storage_used` is kept nonnegative by the SQL (`GREATEST(_, 0)`), so it is
a `Nat`. -/
structure DbUser where
  id : String
  phoneNumber : String
  storageUsed : Nat
  storageQuota : Nat
  deriving DecidableEq, Repr

/-- A row of the `documents` table. Object keys and row ids are drawn from
one fresh-id counter standing in for `uuidv4()`. -/
structure DbDocument where
  id : Nat
  userId : String
  typ : String
  title : String
  description : Option String
  notes : Option String
  fileUrl : Nat
  thumbnailUrl : Option Nat
  fileSize : Nat
  mimeType : String
  status : String
  ocrStatus : Option String
  deriving DecidableEq, Repr

/-- A row of `document_ai_analysis`; `document_id` carries a UNIQUE
constraint in the schema. -/
structure AnalysisRow where
  documentId : Nat
  extractedText : Option String
  summary : Option String
  insights : List String
  deriving DecidableEq, Repr

/-- The backend state: database tables, the object-store bucket contents
(keys), and the fresh-identifier counter. -/
structure SysState where
  users : List DbUser
  documents : List DbDocument
  analyses : List AnalysisRow
  s3Objects : List Nat
  nextId : Nat
  deriving DecidableEq, Repr

/-- An incoming multer file: reported size, MIME type, and raw bytes. -/
structure MFile where
  size : Nat
  mimetype : String
  buffer : List Nat
  deriving DecidableEq, Repr

/-- `UploadDocumentRequest` metadata; absent fields are `none`. -/
structure UploadMeta where
  typ : Option String
  title : Option String
  description : Option String
  processWithOCR : Bool
  processWithAI : Bool
  deriving DecidableEq, Repr

/-- `UpdateDocumentRequest`: four optional fields; `none` models a field
that was not provided (`undefined`). -/
structure UpdateReq where
  title : Option String
  description : Option String
  notes : Option String
  typ : Option String
  deriving DecidableEq, Repr

/-- The analysis block embedded in the API `Document` shape. -/
structure ApiAnalysis where
  extractedText : Option String
  summary : Option String
  insights : List String
  deriving DecidableEq, Repr

/-- The API `Document` shape produced by `mapDbDocumentToDocument`. -/
structure ApiDocument where
  id : Nat
  userId : String
  typ : String
  title : String
  description : Option String
  notes : Option String
  fileUrl : Nat
  thumbnailUrl : Option Nat
  fileSize : Nat
  mimeType : String
  status : String
  ocrStatus : Option String
  aiAnalysis : Option ApiAnalysis
  deriving DecidableEq, Repr

/-! ## S3Service -/

/-- `S3Service.UploadResult`. -/
structure UploadResult where
  fileUrl : Nat
  thumbnailUrl : Option Nat
  fileSize : Nat
  deriving DecidableEq, Repr

/-- `S3Service.isImageType`. -/
def isImageType (mimeType : String) : Bool :=
  mimeType.startsWith "image/"

/-- `S3Service.uploadDocument`: stores the buffer under a fresh key (and,
for images, a derived thumbnail under a second fresh key) and reports
`fileSize := buffer.length` — the byte length of the input buffer, never a
re-encoded size. Returns the result plus the keys added to the bucket.
`fresh` stands for the `uuidv4()` source; the thumbnail key is generated
unconditionally in the source, so two identifiers are always consumed. -/
def s3UploadDocument (buffer : List Nat) (mimeType : String) (fresh : Nat) :
    UploadResult × List Nat :=
  if isImageType mimeType then
    ({ fileUrl := fresh, thumbnailUrl := some (fresh + 1), fileSize := buffer.length },
      [fresh, fresh + 1])
  else
    ({ fileUrl := fresh, thumbnailUrl := none, fileSize := buffer.length }, [fresh])

/-! ## DocumentService -/

def MAX_FILE_SIZE : Nat := 5 * 1024 * 1024

def allowedTypes : List String :=
  ["image/jpeg", "image/jpg", "image/png", "image/gif", "application/pdf"]

def findUser (st : SysState) (userId : String) : Option DbUser :=
  st.users.find? (fun u => u.id == userId)

def userUsed (st : SysState) (userId : String) : Option Nat :=
  (findUser st userId).map (·.storageUsed)

def findDoc (st : SysState) (documentId : Nat) (userId : String) : Option DbDocument :=
  st.documents.find? (fun d => d.id == documentId && d.userId == userId)

def findAnalysis (st : SysState) (documentId : Nat) : Option AnalysisRow :=
  st.analyses.find? (fun a => a.documentId == documentId)

/-- Result shape of `DocumentService.checkStorageQuota`. -/
structure QuotaCheck where
  allowed : Bool
  message : Option String
  deriving DecidableEq, Repr

/-- The message built by `checkStorageQuota` when the quota is exceeded.
`remaining` is computed in JavaScript as `storage_quota - storage_used`,
which can be negative, hence `Int`. -/
def quotaMessage (remaining quota : Int) : String :=
  "Storage quota exceeded. You have " ++ formatFileSize remaining ++
    " remaining of your " ++ formatFileSize quota ++ " quota."

/-- `DocumentService.checkStorageQuota`. -/
def checkStorageQuota (st : SysState) (userId : String) (fileSize : Nat) : QuotaCheck :=
  match findUser st userId with
  | none => { allowed := false, message := some "User not found" }
  | some u =>
    if u.storageUsed + fileSize > u.storageQuota then
      { allowed := false,
        message := some (quotaMessage ((u.storageQuota : Int) - (u.storageUsed : Int)) u.storageQuota) }
    else
      { allowed := true, message := none }

/-- `DocumentService.mapDbDocumentToDocument`, applied to a document row
left-joined with its optional analysis row. The analysis block is attached
only when `extracted_text || summary` is truthy. -/
def mapDbDocumentToDocument (d : DbDocument) (a : Option AnalysisRow) : ApiDocument :=
  { id := d.id, userId := d.userId, typ := d.typ, title := d.title,
    description := d.description, notes := d.notes, fileUrl := d.fileUrl,
    thumbnailUrl := d.thumbnailUrl, fileSize := d.fileSize, mimeType := d.mimeType,
    status := d.status, ocrStatus := d.ocrStatus,
    aiAnalysis :=
      match a with
      | some ar =>
        if jsTruthyStr ar.extractedText || jsTruthyStr ar.summary then
          some { extractedText := ar.extractedText, summary := ar.summary,
                 insights := ar.insights }
        else none
      | none => none }

/-- `DocumentService.uploadDocument`: size check, MIME allow-list check,
quota check, then (in one transaction) object upload, row insert, and
`storage_used` increment. Three fresh identifiers are consumed: object
key, thumbnail key, document id. -/
def uploadDocument (st : SysState) (userId : String) (file : MFile)
    (metadata : UploadMeta) : SysState × ApiResp ApiDocument :=
  if file.size > MAX_FILE_SIZE then
    (st, .err .FILE_TOO_LARGE
      ("File size (" ++ formatFileSize file.size ++ ") exceeds 5 MB limit"))
  else if !(allowedTypes.contains file.mimetype) then
    (st, .err .UNSUPPORTED_FILE_TYPE "Only JPEG, PNG, GIF, and PDF files are supported")
  else
    let quotaCheck := checkStorageQuota st userId file.size
    if !quotaCheck.allowed then
      (st, .err .STORAGE_QUOTA_EXCEEDED (jsOr quotaCheck.message "Storage quota exceeded"))
    else
      let uploadResult := (s3UploadDocument file.buffer file.mimetype st.nextId).1
      let newKeys := (s3UploadDocument file.buffer file.mimetype st.nextId).2
      let newDoc : DbDocument :=
        { id := st.nextId + 2, userId := userId,
          typ := jsOr metadata.typ "other",
          title := jsOr metadata.title "Untitled Document",
          description := jsOrNull metadata.description,
          notes := none,
          fileUrl := uploadResult.fileUrl,
          thumbnailUrl := uploadResult.thumbnailUrl,
          fileSize := uploadResult.fileSize,
          mimeType := file.mimetype,
          status := "pending_processing",
          ocrStatus := none }
      let st' : SysState :=
        { st with
          documents := st.documents ++ [newDoc],
          users := st.users.map (fun u =>
            if u.id == userId then { u with storageUsed := u.storageUsed + uploadResult.fileSize }
            else u),
          s3Objects := st.s3Objects ++ newKeys,
          nextId := st.nextId + 3 }
      (st', .ok (mapDbDocumentToDocument newDoc none))

/-- `DocumentService.getDocument`. -/
def getDocument (st : SysState) (documentId : Nat) (userId : String) :
    ApiResp ApiDocument :=
  match findDoc st documentId userId with
  | none => .err .NOT_FOUND "Document not found"
  | some d => .ok (mapDbDocumentToDocument d (findAnalysis st documentId))

/-- `DocumentService.updateDocument`: ownership-scoped partial update; if
no field was provided it returns the current document without writing. -/
def updateDocument (st : SysState) (documentId : Nat) (userId : String)
    (u : UpdateReq) : SysState × ApiResp ApiDocument :=
  match findDoc st documentId userId with
  | none => (st, .err .NOT_FOUND "Document not found")
  | some _ =>
    if u.title.isNone && u.description.isNone && u.notes.isNone && u.typ.isNone then
      (st, getDocument st documentId userId)
    else
      let st' : SysState :=
        { st with documents := st.documents.map (fun d =>
            if d.id == documentId && d.userId == userId then
              { d with
                title := u.title.getD d.title,
                description := match u.description with | some v => some v | none => d.description,
                notes := match u.notes with | some v => some v | none => d.notes,
                typ := u.typ.getD d.typ }
            else d) }
      (st', getDocument st' documentId userId)

/-- `DocumentService.deleteDocument`: ownership-scoped lookup (404 when
absent), then delete the storage object(s), delete the row (the analysis
row cascades), and decrement `storage_used` with `GREATEST(_, 0)` —
truncated subtraction on `Nat`. -/
def deleteDocument (st : SysState) (documentId : Nat) (userId : String) :
    SysState × ApiResp Unit :=
  match findDoc st documentId userId with
  | none => (st, .err .NOT_FOUND "Document not found")
  | some doc =>
    let st' : SysState :=
      { st with
        s3Objects := st.s3Objects.filter (fun k =>
          k != doc.fileUrl && (match doc.thumbnailUrl with
                               | some t => k != t
                               | none => true)),
        documents := st.documents.filter (fun d => d.id != documentId),
        analyses := st.analyses.filter (fun a => a.documentId != documentId),
        users := st.users.map (fun u =>
          if u.id == userId then { u with storageUsed := u.storageUsed - doc.fileSize }
          else u) }
    (st', .ok ())

/-! ## Background enrichment writes

`processDocumentWithOCR` and `processDocumentWithAI` are fire-and-forget
tasks; their external calls (vision engine, language model) are modelled
as input parameters and their database writes as state transitions. -/

def hasAnalysis (st : SysState) (documentId : Nat) : Bool :=
  st.analyses.any (fun a => a.documentId == documentId)

def setOcrStatus (st : SysState) (documentId : Nat) (s : String) : SysState :=
  { st with documents := st.documents.map (fun d =>
      if d.id == documentId then { d with ocrStatus := some s } else d) }

def setDocStatus (st : SysState) (documentId : Nat) (s : String) : SysState :=
  { st with documents := st.documents.map (fun d =>
      if d.id == documentId then { d with status := s } else d) }

/-- The result-storing step of `processDocumentWithOCR`: select the
analysis row by document id, then UPDATE only `extracted_text` when a row
exists, else INSERT a row carrying only `document_id` and
`extracted_text`; finally mark `ocr_status` completed. -/
def ocrStoreText (st : SysState) (documentId : Nat) (text : String) : SysState :=
  let analyses' :=
    if hasAnalysis st documentId then
      st.analyses.map (fun a =>
        if a.documentId == documentId then { a with extractedText := some text } else a)
    else
      st.analyses ++ [{ documentId := documentId, extractedText := some text,
                        summary := none, insights := [] }]
  setOcrStatus { st with analyses := analyses' } documentId "completed"

/-- `processDocumentWithOCR` as a state transition, with the text
extraction outcome supplied as a parameter: set `ocr_status` to
processing, then either store the text or mark the document failed. -/
def processDocumentWithOCR (st : SysState) (documentId : Nat)
    (ocrOutcome : Option String) : SysState :=
  let st1 := setOcrStatus st documentId "processing"
  match ocrOutcome with
  | none => setOcrStatus st1 documentId "failed"
  | some text => ocrStoreText st1 documentId text

/-- The model's claimed JSON payload: `extractedText`, `summary`,
`insights`, each possibly absent. -/
structure AiAnalysisJson where
  extractedText : Option String
  summary : Option String
  insights : Option (List String)
  deriving DecidableEq, Repr

/-- The `try JSON.parse / catch` step of `processDocumentWithAI`:
`parsed = none` models a reply that is not valid JSON, in which case the
raw reply text becomes the summary, `extractedText` is the empty string,
and `insights` is the empty array. -/
def analysisOfReply (reply : String) (parsed : Option AiAnalysisJson) : AiAnalysisJson :=
  match parsed with
  | some a => a
  | none => { extractedText := some "", summary := some reply, insights := some [] }

/-- The row `processDocumentWithAI` hands to its INSERT: empty strings are
coerced to NULL by `|| null`, a missing insights array defaults to `[]`. -/
def aiRowOf (documentId : Nat) (analysis : AiAnalysisJson) : AnalysisRow :=
  { documentId := documentId,
    extractedText := jsOrNull analysis.extractedText,
    summary := jsOrNull analysis.summary,
    insights := analysis.insights.getD [] }

/-- The plain INSERT of `processDocumentWithAI`; `document_id` is UNIQUE
in the schema, so the insert raises when a row already exists. -/
def aiInsertAnalysis (st : SysState) (row : AnalysisRow) : Except Unit SysState :=
  if hasAnalysis st row.documentId then .error ()
  else .ok { st with analyses := st.analyses ++ [row] }

/-- `processDocumentWithAI` as a state transition, with the language-model
reply and its JSON parse outcome supplied as parameters: build the
analysis object (defensively when the reply is not JSON), INSERT it, and
set the document status to processed — or to failed when the insert raises
(in particular on the unique-constraint violation). -/
def processDocumentWithAI (st : SysState) (documentId : Nat) (reply : String)
    (parsed : Option AiAnalysisJson) : SysState :=
  let analysis := analysisOfReply reply parsed
  match aiInsertAnalysis st (aiRowOf documentId analysis) with
  | .ok st' => setDocStatus st' documentId "processed"
  | .error _ => setDocStatus st documentId "failed"

/-! ## OcrService -/

/-- One entry of `textAnnotations` in the vision engine's response.
Confidence is a per-annotation fraction in `[0,1]`, modelled as a
rational. -/
structure VisionAnnotation where
  description : Option String
  confidence : Option ℚ
  locale : Option String
  boundingPoly : Option (List (Int × Int))
  deriving DecidableEq, Repr

/-- The `error` field of a vision response. -/
structure VisionError where
  code : String
  message : Option String
  deriving DecidableEq, Repr

/-- What the race between the vision call and the 10-second timer can
yield: a response (with an optional error field and the annotations), the
timeout, or a thrown client error carrying a numeric code and a message. -/
inductive VisionOutcome where
  | response (error : Option VisionError) (textAnnotations : List VisionAnnotation)
  | timeoutErr
  | thrown (code : Option Nat) (message : Option String)
  deriving DecidableEq, Repr

/-- `OcrService`'s error shape. -/
structure OcrErr where
  code : String
  message : String
  retryable : Bool
  deriving DecidableEq, Repr

/-- `OcrService`'s success data. -/
structure OcrData where
  text : String
  confidence : ℚ
  language : String
  boundingBoxes : List (String × List (Int × Int))
  deriving DecidableEq, Repr

/-- `OcrService.isSupportedImageType`. -/
def isSupportedImageType (mimeType : String) : Bool :=
  ["image/jpeg", "image/jpg", "image/png", "image/gif", "image/webp",
   "image/bmp", "image/tiff"].contains mimeType

/-- `OcrService.isRetryableError`. -/
def isRetryableError (e : VisionError) : Bool :=
  ["UNAVAILABLE", "DEADLINE_EXCEEDED", "RESOURCE_EXHAUSTED"].contains e.code

/-- `OcrService.calculateAverageConfidence`: mean of the positive
per-annotation confidences, as a percentage; 100 when there is nothing to
average. -/
def calculateAverageConfidence (annotations : List VisionAnnotation) : ℚ :=
  if annotations = [] then 100
  else
    let confidences :=
      (annotations.map (fun a => a.confidence.getD 0)).filter (fun c => decide (0 < c))
    if confidences = [] then 100
    else confidences.sum / (confidences.length : ℚ) * 100

/-- Does a thrown error's message mention a quota? (`includes('quota')`). -/
def mentionsQuota (message : Option String) : Bool :=
  match message with
  | some s => decide ("quota".data <:+: s.data)
  | none => false

/-- `OcrService.extractText`, with the engine outcome as a parameter. At
zero annotations the source returns success with empty text and
`confidence: 0`; otherwise the head annotation supplies the full text and
locale and the tail supplies the confidence average and bounding boxes. -/
def extractText (mimeType : String) (outcome : VisionOutcome) :
    Except OcrErr OcrData :=
  if !(isSupportedImageType mimeType) then
    .error { code := "UNSUPPORTED_TYPE",
             message := "OCR not supported for " ++ mimeType ++ ". Only images are supported.",
             retryable := false }
  else
    match outcome with
    | .response (some e) _ =>
      .error { code := "API_ERROR",
               message := jsOr e.message "Vision API returned an error",
               retryable := isRetryableError e }
    | .response none [] =>
      .ok { text := "", confidence := 0, language := "en", boundingBoxes := [] }
    | .response none (full :: rest) =>
      .ok { text := jsOr full.description "",
            confidence := calculateAverageConfidence rest,
            language := jsOr full.locale "en",
            boundingBoxes := rest.map (fun a => (jsOr a.description "", a.boundingPoly.getD [])) }
    | .timeoutErr =>
      .error { code := "TIMEOUT",
               message := "OCR processing timed out after 10 seconds",
               retryable := true }
    | .thrown code message =>
      if code == some 8 || mentionsQuota message then
        .error { code := "QUOTA_EXCEEDED",
                 message := "Google Vision API quota exceeded",
                 retryable := false }
      else
        .error { code := "INTERNAL_ERROR",
                 message := jsOr message "Failed to extract text from image",
                 retryable := true }

/-! ## AuthService -/

/-- A row of the `users` table as the auth service sees it. -/
structure AuthUser where
  id : Nat
  phoneNumber : String
  passwordHash : String
  fullName : String
  deriving DecidableEq, Repr

/-- The auth-side database state; `nextId` stands for `uuidv4()`. -/
structure AuthDb where
  users : List AuthUser
  nextId : Nat
  deriving DecidableEq, Repr

/-- `RegisterData`. -/
structure RegisterData where
  phoneNumber : String
  password : String
  fullName : String
  deriving DecidableEq, Repr

/-- Outcome of register/login; the token is issued from the user id alone,
so the id and phone stand in for the `AuthResponse` payload. -/
inductive AuthResult where
  | ok (userId : Nat) (phoneNumber : String)
  | err (code : ErrCode) (message : String)
  deriving DecidableEq, Repr

/-- `AuthService.validatePassword`: at least 8 characters and at least one
digit; returns the failure message when invalid. -/
def validatePassword (password : String) : Option String :=
  if password.length < 8 then some "Password must be at least 8 characters long"
  else if !(password.data.any Char.isDigit) then
    some "Password must contain at least one number"
  else none

/-- The `replace(/[\s-]/g, '')` step: strip whitespace and dashes. -/
def cleanPhone (s : String) : String :=
  ⟨s.data.filter (fun c =>
    !(c == ' ' || c == '-' || c == '\t' || c == '\n' || c == '\r' ||
      c == '\x0b' || c == '\x0c'))⟩

/-- Does a string match the raw pattern: `+977` followed by exactly ten
digits? -/
def matchesNepalPhonePattern (s : String) : Bool :=
  s.data.length == 14 && s.data.take 4 == ['+', '9', '7', '7'] &&
    (s.data.drop 4).all Char.isDigit

/-- `AuthService.validatePhoneNumber`: clean, then match the pattern. -/
def validatePhoneNumber (phoneNumber : String) : Option String :=
  if matchesNepalPhonePattern (cleanPhone phoneNumber) then none
  else some "Phone number must be in format +977XXXXXXXXXX (Nepal)"

/-- `AuthService.register`, with the bcrypt hash as a parameter. The
password strength check runs before the phone-number check. -/
def register (db : AuthDb) (hash : String → String) (data : RegisterData) :
    AuthDb × AuthResult :=
  match validatePassword data.password with
  | some msg => (db, .err .WEAK_PASSWORD msg)
  | none =>
    match validatePhoneNumber data.phoneNumber with
    | some msg => (db, .err .VALIDATION_ERROR msg)
    | none =>
      if db.users.any (fun u => u.phoneNumber == data.phoneNumber) then
        (db, .err .DUPLICATE_PHONE "Phone number already registered")
      else
        ({ users := db.users ++
            [{ id := db.nextId, phoneNumber := data.phoneNumber,
               passwordHash := hash data.password, fullName := data.fullName }],
           nextId := db.nextId + 1 },
         .ok db.nextId data.phoneNumber)

/-- `AuthService.login`, with the bcrypt comparison as a parameter. The
phone-number format is validated before any user lookup or password
comparison. -/
def login (db : AuthDb) (compare : String → String → Bool)
    (phoneNumber password : String) : AuthResult :=
  match validatePhoneNumber phoneNumber with
  | some _ => .err .INVALID_CREDENTIALS "Invalid phone number or password"
  | none =>
    match db.users.find? (fun u => u.phoneNumber == phoneNumber) with
    | none => .err .INVALID_CREDENTIALS "Invalid phone number or password"
    | some u =>
      if compare password u.passwordHash then .ok u.id u.phoneNumber
      else .err .INVALID_CREDENTIALS "Invalid phone number or password"

/-! ## Operation sequences for the storage invariant -/

/-- One synchronous document operation for a fixed user. -/
inductive DocOp where
  | upload (file : MFile) (metadata : UploadMeta)
  | delete (documentId : Nat)

def applyOp (userId : String) (st : SysState) : DocOp → SysState
  | .upload f m => (uploadDocument st userId f m).1
  | .delete d => (deleteDocument st d userId).1

def applyOps (userId : String) (st : SysState) (ops : List DocOp) : SysState :=
  ops.foldl (applyOp userId) st

/-- The user's set of currently existing documents. -/
def userDocs (st : SysState) (userId : String) : List DbDocument :=
  st.documents.filter (fun d => d.userId == userId)

def sumSizes (ds : List DbDocument) : Nat :=
  (ds.map (·.fileSize)).sum

/-- Well-formedness maintained by the pipeline: document ids are below the
fresh counter and pairwise distinct. -/
def WF (st : SysState) : Prop :=
  (∀ d ∈ st.documents, d.id < st.nextId) ∧
    st.documents.Pairwise (fun a b => a.id ≠ b.id)

/-! ## Helper lemmas -/

lemma findUser_after_add (l : List DbUser) (uid : String) (k : Nat) :
    (l.map (fun u => if u.id == uid then { u with storageUsed := u.storageUsed + k } else u)).find?
        (fun u => u.id == uid)
      = (l.find? (fun u => u.id == uid)).map
          (fun u => { u with storageUsed := u.storageUsed + k }) := by
  rw [List.find?_map]
  have hpred : ((fun u : DbUser => u.id == uid) ∘
      (fun u => if u.id == uid then { u with storageUsed := u.storageUsed + k } else u))
      = (fun u : DbUser => u.id == uid) := by
    funext x
    by_cases hx : x.id = uid <;> simp [hx]
  rw [hpred]
  cases hf : l.find? (fun u => u.id == uid) with
  | none => rfl
  | some a =>
    have ha : a.id = uid := by simpa using List.find?_some hf
    simp [ha]

lemma findUser_after_sub (l : List DbUser) (uid : String) (k : Nat) :
    (l.map (fun u => if u.id == uid then { u with storageUsed := u.storageUsed - k } else u)).find?
        (fun u => u.id == uid)
      = (l.find? (fun u => u.id == uid)).map
          (fun u => { u with storageUsed := u.storageUsed - k }) := by
  rw [List.find?_map]
  have hpred : ((fun u : DbUser => u.id == uid) ∘
      (fun u => if u.id == uid then { u with storageUsed := u.storageUsed - k } else u))
      = (fun u : DbUser => u.id == uid) := by
    funext x
    by_cases hx : x.id = uid <;> simp [hx]
  rw [hpred]
  cases hf : l.find? (fun u => u.id == uid) with
  | none => rfl
  | some a =>
    have ha : a.id = uid := by simpa using List.find?_some hf
    simp [ha]

lemma sumSizes_filter_ne (l : List DbDocument) (d : DbDocument)
    (hpw : l.Pairwise (fun a b => a.id ≠ b.id)) (hmem : d ∈ l) :
    sumSizes (l.filter (fun x => x.id != d.id)) + d.fileSize = sumSizes l := by
  induction l with
  | nil => cases hmem
  | cons a t ih =>
    rw [List.pairwise_cons] at hpw
    obtain ⟨ha, hpt⟩ := hpw
    rcases List.mem_cons.mp hmem with rfl | hmt
    · have hkeep : t.filter (fun x => x.id != d.id) = t :=
        List.filter_eq_self.mpr (fun x hx => by
          simp only [bne_iff_ne, ne_eq, decide_eq_true_eq]
          exact fun hcontra => ha x hx hcontra.symm)
      simp [List.filter_cons, hkeep, sumSizes, Nat.add_comm]
    · have hne : (a.id != d.id) = true := by
        simp only [bne_iff_ne, ne_eq]
        exact ha d hmt
      have := ih hpt hmt
      simp only [List.filter_cons, hne, if_true, sumSizes, List.map_cons, List.sum_cons]
      simp only [sumSizes] at this
      omega

lemma quotaMessage_ne_empty (r q : Int) : quotaMessage r q ≠ "" := by
  intro h
  have h2 := congrArg String.length h
  simp only [quotaMessage, String.length_append] at h2
  have l1 : ("Storage quota exceeded. You have " : String).length = 33 := by decide
  have l2 : (" remaining of your " : String).length = 19 := by decide
  have l3 : (" quota." : String).length = 7 := by decide
  have l4 : ("" : String).length = 0 := rfl
  omega

lemma s3UploadDocument_fileSize (b : List Nat) (m : String) (f : Nat) :
    (s3UploadDocument b m f).1.fileSize = b.length := by
  simp only [s3UploadDocument]
  split <;> rfl

/-- The quota-rejection path of `uploadDocument`: when the stored usage
plus the reported file size exceeds the stored quota (and the size and
MIME checks pass), the call returns the quota error carrying the
remaining/total message and leaves the state untouched. -/
lemma upload_quota_exceeded (st : SysState) (userId : String) (file : MFile)
    (metadata : UploadMeta) (usr : DbUser)
    (hu : findUser st userId = some usr)
    (hq : usr.storageQuota < usr.storageUsed + file.size)
    (hsize : file.size ≤ MAX_FILE_SIZE)
    (hmime : allowedTypes.contains file.mimetype = true) :
    uploadDocument st userId file metadata =
      (st, .err .STORAGE_QUOTA_EXCEEDED
        (quotaMessage ((usr.storageQuota : Int) - (usr.storageUsed : Int)) usr.storageQuota)) := by
  have hcheck : checkStorageQuota st userId file.size =
      ⟨false, some (quotaMessage ((usr.storageQuota : Int) - (usr.storageUsed : Int))
        usr.storageQuota)⟩ := by
    simp [checkStorageQuota, hu, hq]
  have hns : ¬ file.size > MAX_FILE_SIZE := by omega
  have hmem : file.mimetype ∈ allowedTypes := by simpa using hmime
  simp [uploadDocument, hns, hmem, hcheck, jsOr, quotaMessage_ne_empty]

/-- The success path of `uploadDocument`: with all three checks passing,
the state gains the document row, the object keys, and the storage
increment, and the call returns the mapped row. -/
lemma uploadDocument_success (st : SysState) (userId : String) (file : MFile)
    (m : UploadMeta) (usr : DbUser)
    (hu : findUser st userId = some usr)
    (hsize : file.size ≤ MAX_FILE_SIZE)
    (hmime : allowedTypes.contains file.mimetype = true)
    (hquota : usr.storageUsed + file.size ≤ usr.storageQuota) :
    uploadDocument st userId file m =
      ({ st with
          documents := st.documents ++
            [{ id := st.nextId + 2, userId := userId,
               typ := jsOr m.typ "other",
               title := jsOr m.title "Untitled Document",
               description := jsOrNull m.description,
               notes := none,
               fileUrl := (s3UploadDocument file.buffer file.mimetype st.nextId).1.fileUrl,
               thumbnailUrl := (s3UploadDocument file.buffer file.mimetype st.nextId).1.thumbnailUrl,
               fileSize := file.buffer.length,
               mimeType := file.mimetype,
               status := "pending_processing",
               ocrStatus := none }],
          users := st.users.map (fun u =>
            if u.id == userId then { u with storageUsed := u.storageUsed + file.buffer.length }
            else u),
          s3Objects := st.s3Objects ++ (s3UploadDocument file.buffer file.mimetype st.nextId).2,
          nextId := st.nextId + 3 },
       .ok (mapDbDocumentToDocument
         { id := st.nextId + 2, userId := userId,
           typ := jsOr m.typ "other",
           title := jsOr m.title "Untitled Document",
           description := jsOrNull m.description,
           notes := none,
           fileUrl := (s3UploadDocument file.buffer file.mimetype st.nextId).1.fileUrl,
           thumbnailUrl := (s3UploadDocument file.buffer file.mimetype st.nextId).1.thumbnailUrl,
           fileSize := file.buffer.length,
           mimeType := file.mimetype,
           status := "pending_processing",
           ocrStatus := none } none)) := by
  have hcheck : checkStorageQuota st userId file.size = ⟨true, none⟩ := by
    simp [checkStorageQuota, hu]
    omega
  have hns : ¬ file.size > MAX_FILE_SIZE := by omega
  have hmem : file.mimetype ∈ allowedTypes := by simpa using hmime
  simp [uploadDocument, hns, hmem, hcheck, s3UploadDocument_fileSize]

/-! ## Claim C1: the storage accounting invariant -/

/-- The invariant: the user's stored `storage_used` counter equals the sum
of `file_size` over the user's currently existing document rows. -/
def StorageInv (st : SysState) (userId : String) : Prop :=
  userUsed st userId = some (sumSizes (userDocs st userId))

lemma upload_preserves (userId : String) (f : MFile) (m : UploadMeta) (st : SysState)
    (h : WF st ∧ StorageInv st userId) :
    WF (uploadDocument st userId f m).1
      ∧ StorageInv (uploadDocument st userId f m).1 userId := by
  obtain ⟨⟨hbound, hpw⟩, hinv⟩ := h
  by_cases h1 : f.size > MAX_FILE_SIZE
  · simp only [uploadDocument, if_pos h1]
    exact ⟨⟨hbound, hpw⟩, hinv⟩
  by_cases h2 : allowedTypes.contains f.mimetype = true
  swap
  · have h2' : allowedTypes.contains f.mimetype = false := by
      simpa using h2
    simp only [uploadDocument, if_neg h1, h2', Bool.not_false, if_true]
    exact ⟨⟨hbound, hpw⟩, hinv⟩
  by_cases h3 : (checkStorageQuota st userId f.size).allowed = true
  swap
  · have h3' : (checkStorageQuota st userId f.size).allowed = false := by
      simpa using h3
    simp only [uploadDocument, if_neg h1, h2, Bool.not_true, Bool.false_eq_true, if_false,
      h3', Bool.not_false, if_true]
    exact ⟨⟨hbound, hpw⟩, hinv⟩
  · simp only [uploadDocument, if_neg h1, h2, Bool.not_true, Bool.false_eq_true, if_false,
      h3, if_true]
    refine ⟨⟨?_, ?_⟩, ?_⟩
    · intro d hdm
      dsimp only at hdm ⊢
      rcases List.mem_append.mp hdm with hmem | hmem
      · have := hbound d hmem
        omega
      · have hd2 : d.id = st.nextId + 2 := by
          simp only [List.mem_singleton] at hmem
          rw [hmem]
        omega
    · dsimp only
      rw [List.pairwise_append]
      refine ⟨hpw, by simp, ?_⟩
      intro a ha b hb
      have hb2 : b.id = st.nextId + 2 := by
        simp only [List.mem_singleton] at hb
        rw [hb]
      have := hbound a ha
      omega
    · simp only [StorageInv, userUsed, findUser, userDocs]
      rw [s3UploadDocument_fileSize, findUser_after_add]
      have hinv' : (st.users.find? (fun u => u.id == userId)).map (·.storageUsed)
          = some (sumSizes (st.documents.filter (fun d => d.userId == userId))) := hinv
      cases hfu : st.users.find? (fun u => u.id == userId) with
      | none =>
        rw [hfu] at hinv'
        cases hinv'
      | some usr =>
        rw [hfu] at hinv'
        have husr : usr.storageUsed
            = sumSizes (st.documents.filter (fun d => d.userId == userId)) := by
          simpa using hinv'
        simp [List.filter_append, sumSizes, husr]

lemma delete_preserves (userId : String) (documentId : Nat) (st : SysState)
    (h : WF st ∧ StorageInv st userId) :
    WF (deleteDocument st documentId userId).1
      ∧ StorageInv (deleteDocument st documentId userId).1 userId := by
  obtain ⟨⟨hbound, hpw⟩, hinv⟩ := h
  cases hd : st.documents.find? (fun d => d.id == documentId && d.userId == userId) with
  | none =>
    simp only [deleteDocument, findDoc, hd]
    exact ⟨⟨hbound, hpw⟩, hinv⟩
  | some doc =>
    have hpred := List.find?_some hd
    have hdid : doc.id = documentId ∧ doc.userId = userId := by
      simpa using hpred
    have hmem : doc ∈ st.documents := List.mem_of_find?_eq_some hd
    simp only [deleteDocument, findDoc, hd]
    constructor
    · refine ⟨?_, List.Pairwise.sublist (List.filter_sublist _) hpw⟩
      intro d hdm
      exact hbound d (List.mem_of_mem_filter hdm)
    · show ((st.users.map (fun u =>
          if u.id == userId then { u with storageUsed := u.storageUsed - doc.fileSize }
          else u)).find? (fun u => u.id == userId)).map (·.storageUsed)
        = some (sumSizes ((st.documents.filter (fun d => d.id != documentId)).filter
            (fun d => d.userId == userId)))
      have hcomm : (st.documents.filter (fun d => d.id != documentId)).filter
            (fun d => d.userId == userId)
          = (st.documents.filter (fun d => d.userId == userId)).filter
            (fun d => d.id != documentId) := by
        rw [List.filter_filter, List.filter_filter]
        congr 1
        funext a
        exact Bool.and_comm _ _
      have hpw' : (st.documents.filter (fun d => d.userId == userId)).Pairwise
          (fun a b => a.id ≠ b.id) :=
        List.Pairwise.sublist (List.filter_sublist _) hpw
      have hmem' : doc ∈ st.documents.filter (fun d => d.userId == userId) :=
        List.mem_filter.mpr ⟨hmem, by simp [hdid.2]⟩
      have hsum := sumSizes_filter_ne (st.documents.filter (fun d => d.userId == userId))
        doc hpw' hmem'
      rw [findUser_after_sub, hcomm, ← hdid.1]
      have hinv' : (st.users.find? (fun u => u.id == userId)).map (·.storageUsed)
          = some (sumSizes (st.documents.filter (fun d => d.userId == userId))) := hinv
      cases hfu : st.users.find? (fun u => u.id == userId) with
      | none =>
        rw [hfu] at hinv'
        cases hinv'
      | some usr =>
        rw [hfu] at hinv'
        have husr : usr.storageUsed
            = sumSizes (st.documents.filter (fun d => d.userId == userId)) := by
          simpa using hinv'
        simp only [Option.map_some', Option.some.injEq]
        omega

lemma applyOp_preserves (userId : String) (st : SysState) (op : DocOp)
    (h : WF st ∧ StorageInv st userId) :
    WF (applyOp userId st op) ∧ StorageInv (applyOp userId st op) userId := by
  cases op with
  | upload f m => exact upload_preserves userId f m st h
  | delete d => exact delete_preserves userId d st h

/-- C1: starting from a state in which the user has `storageUsed = 0` and
no documents (and document ids are well formed), after any sequence of
synchronous uploadDocument/deleteDocument operations for that user — no
background-enrichment interleaving — the stored counter equals the sum of
fileSize over the user's existing documents. -/
theorem c1_storage_invariant (userId : String) (st0 : SysState) (ops : List DocOp)
    (hwf : WF st0) (hused : userUsed st0 userId = some 0)
    (hdocs : userDocs st0 userId = []) :
    userUsed (applyOps userId st0 ops) userId
      = some (sumSizes (userDocs (applyOps userId st0 ops) userId)) := by
  have hinv0 : StorageInv st0 userId := by
    show userUsed st0 userId = some (sumSizes (userDocs st0 userId))
    rw [hused, hdocs]
    rfl
  have hstep : ∀ st, WF st ∧ StorageInv st userId →
      WF (applyOps userId st ops) ∧ StorageInv (applyOps userId st ops) userId := by
    induction ops with
    | nil => intro st h; exact h
    | cons op t ih =>
      intro st h
      exact ih _ (applyOp_preserves userId st op h)
  exact (hstep st0 ⟨hwf, hinv0⟩).2

theorem c1_storage_invariant_witness :
    WF ⟨[⟨"u", "+9779811111111", 0, 104857600⟩], [], [], [], 0⟩
    ∧ userUsed ⟨[⟨"u", "+9779811111111", 0, 104857600⟩], [], [], [], 0⟩ "u" = some 0
    ∧ userDocs ⟨[⟨"u", "+9779811111111", 0, 104857600⟩], [], [], [], 0⟩ "u" = []
    ∧ userUsed (applyOps "u" ⟨[⟨"u", "+9779811111111", 0, 104857600⟩], [], [], [], 0⟩
        [.upload ⟨3, "image/png", [1, 2, 3]⟩ ⟨none, none, none, false, false⟩,
         .upload ⟨2, "application/pdf", [4, 5]⟩ ⟨some "lab_report", some "Lab", none, false, false⟩,
         .delete 2]) "u"
      = some (sumSizes (userDocs (applyOps "u"
          ⟨[⟨"u", "+9779811111111", 0, 104857600⟩], [], [], [], 0⟩
          [.upload ⟨3, "image/png", [1, 2, 3]⟩ ⟨none, none, none, false, false⟩,
           .upload ⟨2, "application/pdf", [4, 5]⟩ ⟨some "lab_report", some "Lab", none, false, false⟩,
           .delete 2]) "u")) :=
  ⟨⟨by simp, by simp⟩, by decide, by decide,
    c1_storage_invariant "u" ⟨[⟨"u", "+9779811111111", 0, 104857600⟩], [], [], [], 0⟩
      [.upload ⟨3, "image/png", [1, 2, 3]⟩ ⟨none, none, none, false, false⟩,
       .upload ⟨2, "application/pdf", [4, 5]⟩ ⟨some "lab_report", some "Lab", none, false, false⟩,
       .delete 2]
      ⟨by simp, by simp⟩ (by decide) (by decide)⟩

/-! ## Claim C2: quota-exceeded uploads are rejected without side effects -/

/-- C2: whenever the stored usage plus the file's size exceeds the quota
(and the size and MIME checks pass), `uploadDocument` returns a
STORAGE_QUOTA_EXCEEDED error whose message carries the formatted remaining
and total amounts, and the state is unchanged: no object upload, no row
insert, no usage change. -/
theorem c2_quota_rejection (st : SysState) (userId : String) (file : MFile)
    (metadata : UploadMeta) (usr : DbUser)
    (hu : findUser st userId = some usr)
    (hq : usr.storageQuota < usr.storageUsed + file.size)
    (hsize : file.size ≤ MAX_FILE_SIZE)
    (hmime : allowedTypes.contains file.mimetype = true) :
    uploadDocument st userId file metadata =
      (st, .err .STORAGE_QUOTA_EXCEEDED
        (quotaMessage ((usr.storageQuota : Int) - (usr.storageUsed : Int)) usr.storageQuota)) :=
  upload_quota_exceeded st userId file metadata usr hu hq hsize hmime

theorem c2_quota_rejection_witness :
    findUser ⟨[⟨"u", "+9779811111111", 104857500, 104857600⟩], [], [], [], 0⟩ "u"
      = some ⟨"u", "+9779811111111", 104857500, 104857600⟩
    ∧ (104857600 : Nat) < 104857500 + 200
    ∧ (200 : Nat) ≤ MAX_FILE_SIZE
    ∧ allowedTypes.contains "image/png" = true
    ∧ uploadDocument ⟨[⟨"u", "+9779811111111", 104857500, 104857600⟩], [], [], [], 0⟩ "u"
        ⟨200, "image/png", []⟩ ⟨none, none, none, false, false⟩
      = (⟨[⟨"u", "+9779811111111", 104857500, 104857600⟩], [], [], [], 0⟩,
         .err .STORAGE_QUOTA_EXCEEDED
           "Storage quota exceeded. You have 100 Bytes remaining of your 100 MB quota.") :=
  ⟨by decide, by decide, by decide, by decide,
    (c2_quota_rejection ⟨[⟨"u", "+9779811111111", 104857500, 104857600⟩], [], [], [], 0⟩ "u"
      ⟨200, "image/png", []⟩ ⟨none, none, none, false, false⟩
      ⟨"u", "+9779811111111", 104857500, 104857600⟩
      (by decide) (by decide) (by decide) (by decide)).trans (by decide)⟩

/-! ## Claim C10: persisted size and storage increment equal the buffer's
byte length -/

/-- C10: the storage gateway reports exactly the byte length of the input
buffer, and on a successful upload the inserted row's fileSize, the
returned document's fileSize, and the storage-usage increment all equal
that byte length. -/
theorem c10_filesize_is_buffer_length (st : SysState) (userId : String)
    (file : MFile) (m : UploadMeta) (usr : DbUser)
    (hu : findUser st userId = some usr)
    (hsize : file.size ≤ MAX_FILE_SIZE)
    (hmime : allowedTypes.contains file.mimetype = true)
    (hquota : usr.storageUsed + file.size ≤ usr.storageQuota) :
    (s3UploadDocument file.buffer file.mimetype st.nextId).1.fileSize = file.buffer.length
    ∧ (uploadDocument st userId file m).1.documents.map (·.fileSize)
        = st.documents.map (·.fileSize) ++ [file.buffer.length]
    ∧ userUsed (uploadDocument st userId file m).1 userId
        = some (usr.storageUsed + file.buffer.length)
    ∧ ∃ d, (uploadDocument st userId file m).2 = .ok d
        ∧ d.fileSize = file.buffer.length := by
  have hsucc := uploadDocument_success st userId file m usr hu hsize hmime hquota
  refine ⟨s3UploadDocument_fileSize _ _ _, ?_, ?_, ?_⟩
  · rw [hsucc]
    simp
  · rw [hsucc]
    show ((st.users.map (fun u =>
        if u.id == userId then { u with storageUsed := u.storageUsed + file.buffer.length }
        else u)).find? (fun u => u.id == userId)).map (·.storageUsed)
      = some (usr.storageUsed + file.buffer.length)
    rw [findUser_after_add]
    have : st.users.find? (fun u => u.id == userId) = some usr := hu
    rw [this]
    rfl
  · refine ⟨mapDbDocumentToDocument
      { id := st.nextId + 2, userId := userId, typ := jsOr m.typ "other",
        title := jsOr m.title "Untitled Document", description := jsOrNull m.description,
        notes := none,
        fileUrl := (s3UploadDocument file.buffer file.mimetype st.nextId).1.fileUrl,
        thumbnailUrl := (s3UploadDocument file.buffer file.mimetype st.nextId).1.thumbnailUrl,
        fileSize := file.buffer.length, mimeType := file.mimetype,
        status := "pending_processing", ocrStatus := none } none, ?_, rfl⟩
    rw [hsucc]

theorem c10_filesize_witness :
    findUser ⟨[⟨"u", "+9779811111111", 0, 104857600⟩], [], [], [], 0⟩ "u"
      = some ⟨"u", "+9779811111111", 0, 104857600⟩
    ∧ (3 : Nat) ≤ MAX_FILE_SIZE
    ∧ allowedTypes.contains "image/png" = true
    ∧ (0 : Nat) + 3 ≤ 104857600
    ∧ ((s3UploadDocument [9, 9, 9] "image/png" 0).1.fileSize = ([9, 9, 9] : List Nat).length
      ∧ (uploadDocument ⟨[⟨"u", "+9779811111111", 0, 104857600⟩], [], [], [], 0⟩ "u"
          ⟨3, "image/png", [9, 9, 9]⟩ ⟨none, none, none, false, false⟩).1.documents.map (·.fileSize)
        = ([] : List DbDocument).map (·.fileSize) ++ [([9, 9, 9] : List Nat).length]
      ∧ userUsed (uploadDocument ⟨[⟨"u", "+9779811111111", 0, 104857600⟩], [], [], [], 0⟩ "u"
          ⟨3, "image/png", [9, 9, 9]⟩ ⟨none, none, none, false, false⟩).1 "u"
        = some (0 + ([9, 9, 9] : List Nat).length)
      ∧ ∃ d, (uploadDocument ⟨[⟨"u", "+9779811111111", 0, 104857600⟩], [], [], [], 0⟩ "u"
            ⟨3, "image/png", [9, 9, 9]⟩ ⟨none, none, none, false, false⟩).2 = .ok d
          ∧ d.fileSize = ([9, 9, 9] : List Nat).length) :=
  ⟨by decide, by decide, by decide, by decide,
    c10_filesize_is_buffer_length ⟨[⟨"u", "+9779811111111", 0, 104857600⟩], [], [], [], 0⟩ "u"
      ⟨3, "image/png", [9, 9, 9]⟩ ⟨none, none, none, false, false⟩
      ⟨"u", "+9779811111111", 0, 104857600⟩ (by decide) (by decide) (by decide) (by decide)⟩

/-! ## Claim C9: updateDocument with no provided fields is a read-only no-op -/

/-- C9: for a document owned by the caller, `updateDocument` with none of
title, description, notes, type provided performs no write (the state is
returned unchanged) and returns the document's current state. -/
theorem c9_update_noop (st : SysState) (documentId : Nat) (userId : String)
    (doc : DbDocument) (hd : findDoc st documentId userId = some doc) :
    updateDocument st documentId userId ⟨none, none, none, none⟩
      = (st, getDocument st documentId userId)
    ∧ getDocument st documentId userId
      = .ok (mapDbDocumentToDocument doc (findAnalysis st documentId)) := by
  constructor
  · simp [updateDocument, hd]
  · simp [getDocument, hd]

theorem c9_update_noop_witness :
    findDoc ⟨[], [⟨1, "u", "other", "T", none, none, 0, none, 3, "image/png",
        "pending_processing", none⟩], [], [0], 10⟩ 1 "u"
      = some ⟨1, "u", "other", "T", none, none, 0, none, 3, "image/png",
        "pending_processing", none⟩
    ∧ (updateDocument ⟨[], [⟨1, "u", "other", "T", none, none, 0, none, 3, "image/png",
          "pending_processing", none⟩], [], [0], 10⟩ 1 "u" ⟨none, none, none, none⟩
        = (⟨[], [⟨1, "u", "other", "T", none, none, 0, none, 3, "image/png",
            "pending_processing", none⟩], [], [0], 10⟩,
           getDocument ⟨[], [⟨1, "u", "other", "T", none, none, 0, none, 3, "image/png",
            "pending_processing", none⟩], [], [0], 10⟩ 1 "u")
        ∧ getDocument ⟨[], [⟨1, "u", "other", "T", none, none, 0, none, 3, "image/png",
            "pending_processing", none⟩], [], [0], 10⟩ 1 "u"
          = .ok (mapDbDocumentToDocument
              ⟨1, "u", "other", "T", none, none, 0, none, 3, "image/png",
                "pending_processing", none⟩
              (findAnalysis ⟨[], [⟨1, "u", "other", "T", none, none, 0, none, 3, "image/png",
                "pending_processing", none⟩], [], [0], 10⟩ 1))) :=
  ⟨by decide, c9_update_noop _ 1 "u" _ (by decide)⟩

/-! ## Claim C3: delete decrements by the stored size; second call 404s -/

/-- C3: deleting an owned document succeeds, removes that row (keeping all
rows with other ids), decrements the owner's storage by exactly the stored
fileSize with truncation at zero, and a second delete of the same id
returns NOT_FOUND and leaves the state unchanged. -/
theorem c3_delete_decrements (st : SysState) (documentId : Nat) (userId : String)
    (doc : DbDocument)
    (hd : findDoc st documentId userId = some doc) :
    (deleteDocument st documentId userId).2 = .ok ()
    ∧ doc ∉ (deleteDocument st documentId userId).1.documents
    ∧ (∀ e ∈ st.documents, e.id ≠ documentId →
        e ∈ (deleteDocument st documentId userId).1.documents)
    ∧ userUsed (deleteDocument st documentId userId).1 userId
        = (userUsed st userId).map (fun n => n - doc.fileSize)
    ∧ deleteDocument (deleteDocument st documentId userId).1 documentId userId
        = ((deleteDocument st documentId userId).1, .err .NOT_FOUND "Document not found") := by
  have hpred := List.find?_some hd
  have hdid : doc.id = documentId := by
    simp only [Bool.and_eq_true, beq_iff_eq] at hpred
    exact hpred.1
  have hd' : st.documents.find? (fun d => d.id == documentId && d.userId == userId)
      = some doc := hd
  refine ⟨?_, ?_, ?_, ?_, ?_⟩
  · simp [deleteDocument, hd, hd']
  · simp only [deleteDocument, hd, hd']
    intro hmem
    have := (List.mem_filter.mp hmem).2
    simp [hdid] at this
  · intro e he hne
    simp only [deleteDocument, hd, hd']
    refine List.mem_filter.mpr ⟨he, ?_⟩
    simpa using hne
  · simp only [deleteDocument, hd, hd']
    show ((st.users.map (fun u =>
        if u.id == userId then { u with storageUsed := u.storageUsed - doc.fileSize }
        else u)).find? (fun u => u.id == userId)).map (·.storageUsed)
      = ((st.users.find? (fun u => u.id == userId)).map (·.storageUsed)).map
          (fun n => n - doc.fileSize)
    rw [findUser_after_sub]
    cases st.users.find? (fun u => u.id == userId) <;> rfl
  · have hnone : findDoc (deleteDocument st documentId userId).1 documentId userId = none := by
      simp only [deleteDocument, hd, hd', findDoc]
      refine List.find?_eq_none.mpr ?_
      intro x hx
      have hx2 := (List.mem_filter.mp hx).2
      simp only [bne_iff_ne, ne_eq, decide_eq_true_eq] at hx2
      simp [hx2]
    simp only [deleteDocument] at hnone ⊢
    rw [hnone]

theorem c3_delete_decrements_witness :
    findDoc ⟨[⟨"u", "+9779811111111", 10, 104857600⟩],
        [⟨5, "u", "other", "T", none, none, 3, some 4, 10, "image/png",
          "pending_processing", none⟩], [], [3, 4], 8⟩ 5 "u"
      = some ⟨5, "u", "other", "T", none, none, 3, some 4, 10, "image/png",
          "pending_processing", none⟩
    ∧ ((deleteDocument ⟨[⟨"u", "+9779811111111", 10, 104857600⟩],
        [⟨5, "u", "other", "T", none, none, 3, some 4, 10, "image/png",
          "pending_processing", none⟩], [], [3, 4], 8⟩ 5 "u").2 = .ok ()
      ∧ (⟨5, "u", "other", "T", none, none, 3, some 4, 10, "image/png",
          "pending_processing", none⟩ : DbDocument) ∉
          (deleteDocument ⟨[⟨"u", "+9779811111111", 10, 104857600⟩],
            [⟨5, "u", "other", "T", none, none, 3, some 4, 10, "image/png",
              "pending_processing", none⟩], [], [3, 4], 8⟩ 5 "u").1.documents
      ∧ (∀ e ∈ ([⟨5, "u", "other", "T", none, none, 3, some 4, 10, "image/png",
            "pending_processing", none⟩] : List DbDocument), e.id ≠ 5 →
          e ∈ (deleteDocument ⟨[⟨"u", "+9779811111111", 10, 104857600⟩],
            [⟨5, "u", "other", "T", none, none, 3, some 4, 10, "image/png",
              "pending_processing", none⟩], [], [3, 4], 8⟩ 5 "u").1.documents)
      ∧ userUsed (deleteDocument ⟨[⟨"u", "+9779811111111", 10, 104857600⟩],
            [⟨5, "u", "other", "T", none, none, 3, some 4, 10, "image/png",
              "pending_processing", none⟩], [], [3, 4], 8⟩ 5 "u").1 "u"
          = (userUsed ⟨[⟨"u", "+9779811111111", 10, 104857600⟩],
              [⟨5, "u", "other", "T", none, none, 3, some 4, 10, "image/png",
                "pending_processing", none⟩], [], [3, 4], 8⟩ "u").map (fun n => n - 10)
      ∧ deleteDocument (deleteDocument ⟨[⟨"u", "+9779811111111", 10, 104857600⟩],
            [⟨5, "u", "other", "T", none, none, 3, some 4, 10, "image/png",
              "pending_processing", none⟩], [], [3, 4], 8⟩ 5 "u").1 5 "u"
          = ((deleteDocument ⟨[⟨"u", "+9779811111111", 10, 104857600⟩],
              [⟨5, "u", "other", "T", none, none, 3, some 4, 10, "image/png",
                "pending_processing", none⟩], [], [3, 4], 8⟩ 5 "u").1,
             .err .NOT_FOUND "Document not found")) :=
  ⟨by decide,
    c3_delete_decrements ⟨[⟨"u", "+9779811111111", 10, 104857600⟩],
      [⟨5, "u", "other", "T", none, none, 3, some 4, 10, "image/png",
        "pending_processing", none⟩], [], [3, 4], 8⟩ 5 "u"
      ⟨5, "u", "other", "T", none, none, 3, some 4, 10, "image/png",
        "pending_processing", none⟩ (by decide)⟩

/-! ## Claim C5: enrichment writes (corrected: only the OCR path upserts;
the AI path's plain insert fails on an existing row) -/

/-- C5 counterexample: with an AnalysisResult row already present (as the
OCR path leaves behind), the AI path's database write does not succeed —
the plain INSERT hits the UNIQUE document_id constraint, nothing is
written (summary and insights are lost), and the document is marked
failed. -/
theorem c5_counterexample :
    (processDocumentWithAI
        ⟨[], [⟨7, "u", "other", "T", none, none, 0, none, 3, "image/png",
            "pending_processing", some "completed"⟩],
         [⟨7, some "ocr text", none, []⟩], [0], 100⟩
        7 "reply" (some ⟨some "ai text", some "sum", some ["insight"]⟩)).analyses
      = [⟨7, some "ocr text", none, []⟩]
    ∧ ((processDocumentWithAI
        ⟨[], [⟨7, "u", "other", "T", none, none, 0, none, 3, "image/png",
            "pending_processing", some "completed"⟩],
         [⟨7, some "ocr text", none, []⟩], [0], 100⟩
        7 "reply" (some ⟨some "ai text", some "sum", some ["insight"]⟩)).documents.map
          (·.status))
      = ["failed"] := by
  refine ⟨by decide, by decide⟩

/-- C5 amended: the OCR path performs a genuine upsert keyed on document
id — its write succeeds whether or not a row exists, setting
extractedText — while the AI path performs a plain INSERT of
extractedText, summary and insights, which succeeds only when no
AnalysisResult row exists for the document; when one does, the write
fails on the UNIQUE document_id constraint and the analyses table is
unchanged. -/
theorem c5_ocr_upserts_ai_inserts :
    (∀ (st : SysState) (docId : Nat) (text : String),
      ((ocrStoreText st docId text).analyses.find? (fun a => a.documentId == docId)).map
          (·.extractedText)
        = some (some text))
    ∧ (∀ (st : SysState) (docId : Nat) (reply : String) (j : AiAnalysisJson),
        hasAnalysis st docId = false →
        (processDocumentWithAI st docId reply (some j)).analyses
          = st.analyses ++ [aiRowOf docId j])
    ∧ (∀ (st : SysState) (docId : Nat) (reply : String) (j : AiAnalysisJson),
        hasAnalysis st docId = true →
        (processDocumentWithAI st docId reply (some j)).analyses = st.analyses) := by
  refine ⟨?_, ?_, ?_⟩
  · intro st docId text
    by_cases hrow : hasAnalysis st docId = true
    · simp only [ocrStoreText, hrow, if_pos, setOcrStatus]
      rw [List.find?_map]
      have hpp : ((fun a : AnalysisRow => a.documentId == docId) ∘
          (fun a => if a.documentId == docId then { a with extractedText := some text } else a))
          = (fun a : AnalysisRow => a.documentId == docId) := by
        funext a
        by_cases h : a.documentId = docId <;> simp [h]
      rw [hpp]
      have hex : ∃ b, st.analyses.find? (fun a => a.documentId == docId) = some b := by
        rw [← Option.isSome_iff_exists, List.find?_isSome]
        simpa [hasAnalysis, List.any_eq_true] using hrow
      obtain ⟨b, hb⟩ := hex
      have hbp : b.documentId = docId := by simpa using List.find?_some hb
      rw [hb]
      simp [hbp]
    · have hrow' : hasAnalysis st docId = false := by
        simpa using hrow
      simp only [ocrStoreText, hrow', Bool.false_eq_true, if_false, setOcrStatus]
      rw [List.find?_append]
      have hrow2 : st.analyses.any (fun a => a.documentId == docId) = false := hrow'
      have h1 : st.analyses.find? (fun a => a.documentId == docId) = none := by
        refine List.find?_eq_none.mpr ?_
        intro x hx
        exact List.any_eq_false.mp hrow2 x hx
      simp [h1]
  · intro st docId reply j hno
    simp [processDocumentWithAI, analysisOfReply, aiInsertAnalysis, aiRowOf, hno,
      setDocStatus]
  · intro st docId reply j hyes
    simp [processDocumentWithAI, analysisOfReply, aiInsertAnalysis, aiRowOf, hyes,
      setDocStatus]

theorem c5_ocr_upserts_ai_inserts_witness :
    (((ocrStoreText ⟨[], [], [⟨2, some "old", some "s", []⟩], [], 9⟩ 2 "new").analyses.find?
        (fun a => a.documentId == 2)).map (·.extractedText) = some (some "new"))
    ∧ hasAnalysis ⟨[], [], [], [], 0⟩ 1 = false
    ∧ (processDocumentWithAI ⟨[], [], [], [], 0⟩ 1 "r"
        (some ⟨some "e", some "s", some ["i"]⟩)).analyses
      = ([] : List AnalysisRow) ++ [aiRowOf 1 ⟨some "e", some "s", some ["i"]⟩]
    ∧ hasAnalysis ⟨[], [], [⟨3, some "t", none, []⟩], [], 9⟩ 3 = true
    ∧ (processDocumentWithAI ⟨[], [], [⟨3, some "t", none, []⟩], [], 9⟩ 3 "r"
        (some ⟨some "e", some "s", some ["i"]⟩)).analyses
      = (⟨[], [], [⟨3, some "t", none, []⟩], [], 9⟩ : SysState).analyses :=
  ⟨c5_ocr_upserts_ai_inserts.1 ⟨[], [], [⟨2, some "old", some "s", []⟩], [], 9⟩ 2 "new",
    by decide,
    c5_ocr_upserts_ai_inserts.2.1 ⟨[], [], [], [], 0⟩ 1 "r"
      ⟨some "e", some "s", some ["i"]⟩ (by decide),
    by decide,
    c5_ocr_upserts_ai_inserts.2.2 ⟨[], [], [⟨3, some "t", none, []⟩], [], 9⟩ 3 "r"
      ⟨some "e", some "s", some ["i"]⟩ (by decide)⟩

/-! ## Claim C4: OCR with zero annotations (corrected: confidence is 0) -/

/-- C4 counterexample: on a supported image with zero detected text
annotations, `extractText` succeeds with empty text but confidence 0, not
confidence 100 as claimed. -/
theorem c4_counterexample :
    extractText "image/png" (VisionOutcome.response none [])
      = .ok { text := "", confidence := 0, language := "en", boundingBoxes := [] }
    ∧ (0 : ℚ) ≠ 100 := by
  constructor
  · rfl
  · decide

/-- C4 amended: on a supported image for which the engine returns zero
text annotations, `extractText` succeeds with empty text and confidence 0
(not an error); confidence defaults to 100 only in the presence of a
full-text annotation with no positive per-word confidences. -/
theorem c4_zero_annotations (mimeType : String)
    (h : isSupportedImageType mimeType = true) :
    extractText mimeType (VisionOutcome.response none [])
      = .ok { text := "", confidence := 0, language := "en", boundingBoxes := [] }
    ∧ ∀ full : VisionAnnotation,
        extractText mimeType (VisionOutcome.response none [full])
          = .ok { text := jsOr full.description "", confidence := 100,
                  language := jsOr full.locale "en", boundingBoxes := [] } := by
  constructor
  · simp [extractText, h]
  · intro full
    simp [extractText, h, calculateAverageConfidence]

theorem c4_zero_annotations_witness :
    isSupportedImageType "image/png" = true
    ∧ extractText "image/png" (VisionOutcome.response none [])
        = .ok { text := "", confidence := 0, language := "en", boundingBoxes := [] } :=
  ⟨by decide, (c4_zero_annotations "image/png" (by decide)).1⟩

/-! ## Claim C6: the 60 MB two-upload scenario (corrected: a 60 MB file
violates the 5 MB per-file ceiling, so the first upload already fails) -/

/-- C6 counterexample: for a user with a 100 MB quota and 0 bytes used,
an upload of a 60 MB file does not succeed — it is rejected with
FILE_TOO_LARGE before the quota is ever consulted, and the state
(including storageUsed) is unchanged. -/
theorem c6_counterexample :
    uploadDocument ⟨[⟨"u", "+9779811111111", 0, 104857600⟩], [], [], [], 0⟩ "u"
        ⟨62914560, "image/jpeg", List.replicate 62914560 0⟩ ⟨none, none, none, false, false⟩
      = (⟨[⟨"u", "+9779811111111", 0, 104857600⟩], [], [], [], 0⟩,
         .err .FILE_TOO_LARGE "File size (60 MB) exceeds 5 MB limit") := by
  have hgt : (62914560 : Nat) > MAX_FILE_SIZE := by decide
  simp only [uploadDocument, if_pos hgt]
  have hmsg : formatFileSize ((62914560 : Nat) : Int) = "60 MB" := by decide
  rw [hmsg]
  decide

/-- C6 amended: a 60 MB upload is rejected FILE_TOO_LARGE with the state
unchanged; the two-upload quota interplay the scenario intends only
manifests below the 5 MB ceiling — e.g. for a user with a 6 MB quota and
0 used, a first 4 MB upload succeeds (storageUsed becomes 4 MB) and a
second 4 MB upload is rejected STORAGE_QUOTA_EXCEEDED stating 2 MB
remaining of the 6 MB quota. -/
theorem c6_two_upload_scenario (st : SysState) (u : String) (usr : DbUser)
    (f1 f2 fBig : MFile) (m1 m2 mBig : UploadMeta)
    (hu : findUser st u = some usr)
    (hused : usr.storageUsed = 0) (hq : usr.storageQuota = 6291456)
    (hBig : fBig.size = 62914560)
    (h1s : f1.size = 4194304) (h1b : f1.buffer.length = 4194304)
    (h1m : allowedTypes.contains f1.mimetype = true)
    (h2s : f2.size = 4194304)
    (h2m : allowedTypes.contains f2.mimetype = true) :
    uploadDocument st u fBig mBig
      = (st, .err .FILE_TOO_LARGE "File size (60 MB) exceeds 5 MB limit")
    ∧ (∃ d, (uploadDocument st u f1 m1).2 = .ok d)
    ∧ userUsed (uploadDocument st u f1 m1).1 u = some 4194304
    ∧ uploadDocument (uploadDocument st u f1 m1).1 u f2 m2
        = ((uploadDocument st u f1 m1).1,
           .err .STORAGE_QUOTA_EXCEEDED
             "Storage quota exceeded. You have 2 MB remaining of your 6 MB quota.") := by
  have hsize1 : f1.size ≤ MAX_FILE_SIZE := by rw [h1s]; decide
  have hquota1 : usr.storageUsed + f1.size ≤ usr.storageQuota := by
    rw [hused, hq, h1s]; decide
  have hsucc1 := uploadDocument_success st u f1 m1 usr hu hsize1 h1m hquota1
  have hu1 : findUser (uploadDocument st u f1 m1).1 u
      = some { usr with storageUsed := usr.storageUsed + f1.buffer.length } := by
    rw [hsucc1]
    show (st.users.map (fun x =>
        if x.id == u then { x with storageUsed := x.storageUsed + f1.buffer.length }
        else x)).find? (fun x => x.id == u)
      = some { usr with storageUsed := usr.storageUsed + f1.buffer.length }
    rw [findUser_after_add]
    have : st.users.find? (fun x => x.id == u) = some usr := hu
    rw [this]
    rfl
  refine ⟨?_, ?_, ?_, ?_⟩
  · have hgt : fBig.size > MAX_FILE_SIZE := by rw [hBig]; decide
    simp only [uploadDocument, if_pos hgt]
    rw [hBig]
    have hmsg : formatFileSize ((62914560 : Nat) : Int) = "60 MB" := by decide
    rw [hmsg]
    have hcat : ("File size (" ++ "60 MB" ++ ") exceeds 5 MB limit" : String)
        = "File size (60 MB) exceeds 5 MB limit" := by decide
    rw [hcat]
  · exact ⟨_, by rw [hsucc1]⟩
  · rw [hsucc1]
    show ((st.users.map (fun x =>
        if x.id == u then { x with storageUsed := x.storageUsed + f1.buffer.length }
        else x)).find? (fun x => x.id == u)).map (·.storageUsed)
      = some 4194304
    rw [findUser_after_add]
    have : st.users.find? (fun x => x.id == u) = some usr := hu
    rw [this]
    simp [hused, h1b]
  · have hq1 : ({ usr with storageUsed := usr.storageUsed + f1.buffer.length } : DbUser).storageQuota
        < ({ usr with storageUsed := usr.storageUsed + f1.buffer.length } : DbUser).storageUsed + f2.size := by
      simp [hused, hq, h1b, h2s]
    have hsize2 : f2.size ≤ MAX_FILE_SIZE := by rw [h2s]; decide
    have hmain := upload_quota_exceeded (uploadDocument st u f1 m1).1 u f2 m2
      { usr with storageUsed := usr.storageUsed + f1.buffer.length } hu1 hq1 hsize2 h2m
    rw [hmain]
    have hmsg : quotaMessage
        ((({ usr with storageUsed := usr.storageUsed + f1.buffer.length } : DbUser).storageQuota : Int)
          - (({ usr with storageUsed := usr.storageUsed + f1.buffer.length } : DbUser).storageUsed : Int))
        ({ usr with storageUsed := usr.storageUsed + f1.buffer.length } : DbUser).storageQuota
        = "Storage quota exceeded. You have 2 MB remaining of your 6 MB quota." := by
      show quotaMessage ((usr.storageQuota : Int) - ((usr.storageUsed + f1.buffer.length : Nat) : Int))
        usr.storageQuota = _
      rw [hused, hq, h1b]
      decide
    rw [hmsg]

theorem c6_two_upload_scenario_witness :
    findUser ⟨[⟨"u", "+9779811111111", 0, 6291456⟩], [], [], [], 0⟩ "u"
      = some ⟨"u", "+9779811111111", 0, 6291456⟩
    ∧ (List.replicate 4194304 7).length = 4194304
    ∧ allowedTypes.contains "application/pdf" = true
    ∧ (uploadDocument ⟨[⟨"u", "+9779811111111", 0, 6291456⟩], [], [], [], 0⟩ "u"
          ⟨62914560, "image/jpeg", []⟩ ⟨none, none, none, false, false⟩
        = (⟨[⟨"u", "+9779811111111", 0, 6291456⟩], [], [], [], 0⟩,
           .err .FILE_TOO_LARGE "File size (60 MB) exceeds 5 MB limit")
      ∧ (∃ d, (uploadDocument ⟨[⟨"u", "+9779811111111", 0, 6291456⟩], [], [], [], 0⟩ "u"
            ⟨4194304, "application/pdf", List.replicate 4194304 7⟩
            ⟨none, none, none, false, false⟩).2 = .ok d)
      ∧ userUsed (uploadDocument ⟨[⟨"u", "+9779811111111", 0, 6291456⟩], [], [], [], 0⟩ "u"
            ⟨4194304, "application/pdf", List.replicate 4194304 7⟩
            ⟨none, none, none, false, false⟩).1 "u" = some 4194304
      ∧ uploadDocument (uploadDocument ⟨[⟨"u", "+9779811111111", 0, 6291456⟩], [], [], [], 0⟩ "u"
            ⟨4194304, "application/pdf", List.replicate 4194304 7⟩
            ⟨none, none, none, false, false⟩).1 "u"
            ⟨4194304, "application/pdf", List.replicate 4194304 7⟩
            ⟨none, none, none, false, false⟩
          = ((uploadDocument ⟨[⟨"u", "+9779811111111", 0, 6291456⟩], [], [], [], 0⟩ "u"
              ⟨4194304, "application/pdf", List.replicate 4194304 7⟩
              ⟨none, none, none, false, false⟩).1,
             .err .STORAGE_QUOTA_EXCEEDED
               "Storage quota exceeded. You have 2 MB remaining of your 6 MB quota.")) :=
  ⟨by decide, List.length_replicate 4194304 7, by decide,
    c6_two_upload_scenario ⟨[⟨"u", "+9779811111111", 0, 6291456⟩], [], [], [], 0⟩ "u"
      ⟨"u", "+9779811111111", 0, 6291456⟩
      ⟨4194304, "application/pdf", List.replicate 4194304 7⟩
      ⟨4194304, "application/pdf", List.replicate 4194304 7⟩
      ⟨62914560, "image/jpeg", []⟩
      ⟨none, none, none, false, false⟩ ⟨none, none, none, false, false⟩
      ⟨none, none, none, false, false⟩
      (by decide) rfl rfl rfl rfl (List.length_replicate 4194304 7) (by decide) rfl
      (by decide)⟩

/-! ## Claim C7: invalid phone numbers (corrected: register checks the
password first, and the phone is cleaned before matching) -/

/-- C7 counterexample: for the phone number "0123456789" (which does not
match the raw pattern), register's outcome depends on the supplied
password — a weak password is rejected as WEAK_PASSWORD before the phone
is ever examined, a strong one yields the phone validation error. -/
theorem c7_counterexample :
    (register ⟨[], 0⟩ (fun p => p) ⟨"0123456789", "short", "Test User"⟩).2
      = .err .WEAK_PASSWORD "Password must be at least 8 characters long"
    ∧ (register ⟨[], 0⟩ (fun p => p) ⟨"0123456789", "password1", "Test User"⟩).2
      = .err .VALIDATION_ERROR "Phone number must be in format +977XXXXXXXXXX (Nepal)"
    ∧ matchesNepalPhonePattern "0123456789" = false := by
  refine ⟨by decide, by decide, by decide⟩

/-- C7 amended: for every phone number whose whitespace/dash-stripped form
fails the +977-and-ten-digits pattern, login rejects with
INVALID_CREDENTIALS before any user lookup or password comparison (its
outcome is independent of the password and of the comparison function),
and register rejects with VALIDATION_ERROR provided the password first
passes the strength check, which the source runs before the phone
check. -/
theorem c7_invalid_phone (db : AuthDb) (hash : String → String)
    (cmp cmp' : String → String → Bool) (data : RegisterData) (pw pw' : String)
    (hphone : matchesNepalPhonePattern (cleanPhone data.phoneNumber) = false)
    (hpass : validatePassword data.password = none) :
    register db hash data
      = (db, .err .VALIDATION_ERROR "Phone number must be in format +977XXXXXXXXXX (Nepal)")
    ∧ login db cmp data.phoneNumber pw
      = .err .INVALID_CREDENTIALS "Invalid phone number or password"
    ∧ login db cmp data.phoneNumber pw = login db cmp' data.phoneNumber pw' := by
  have hv : validatePhoneNumber data.phoneNumber
      = some "Phone number must be in format +977XXXXXXXXXX (Nepal)" := by
    simp [validatePhoneNumber, hphone]
  refine ⟨?_, ?_, ?_⟩
  · simp [register, hpass, hv]
  · simp [login, hv]
  · simp [login, hv]

theorem c7_invalid_phone_witness :
    matchesNepalPhonePattern (cleanPhone "98-4100000") = false
    ∧ validatePassword "password1" = none
    ∧ (register ⟨[], 0⟩ (fun p => p) ⟨"98-4100000", "password1", "X"⟩
        = (⟨[], 0⟩, .err .VALIDATION_ERROR "Phone number must be in format +977XXXXXXXXXX (Nepal)")
      ∧ login ⟨[], 0⟩ (fun _ _ => true) "98-4100000" "a"
        = .err .INVALID_CREDENTIALS "Invalid phone number or password"
      ∧ login ⟨[], 0⟩ (fun _ _ => true) "98-4100000" "a"
        = login ⟨[], 0⟩ (fun _ _ => false) "98-4100000" "b") :=
  ⟨by decide, by decide,
    c7_invalid_phone ⟨[], 0⟩ (fun p => p) (fun _ _ => true) (fun _ _ => false)
      ⟨"98-4100000", "password1", "X"⟩ "a" "b" (by decide) (by decide)⟩

/-! ## Claim C8: non-JSON language-model replies are handled defensively -/

/-- C8: when the model's reply fails JSON parsing, the AI path does not
propagate the parse failure: the analysis object carries the raw reply as
summary, an empty extractedText and an empty insights array, and the
stored row records the reply as summary with NULL extracted text and no
insights. -/
theorem c8_nonjson_reply (st : SysState) (documentId : Nat) (reply : String)
    (hrow : hasAnalysis st documentId = false) (hne : reply ≠ "") :
    analysisOfReply reply none
      = { extractedText := some "", summary := some reply, insights := some [] }
    ∧ (processDocumentWithAI st documentId reply none).analyses
      = st.analyses ++ [{ documentId := documentId, extractedText := none,
                          summary := some reply, insights := [] }] := by
  refine ⟨rfl, ?_⟩
  simp [processDocumentWithAI, aiInsertAnalysis, aiRowOf, analysisOfReply,
    jsOrNull, hrow, hne, setDocStatus]

theorem c8_nonjson_reply_witness :
    hasAnalysis ⟨[], [], [], [], 0⟩ 1 = false
    ∧ "Here is my freeform analysis." ≠ ""
    ∧ (analysisOfReply "Here is my freeform analysis." none
        = { extractedText := some "", summary := some "Here is my freeform analysis.",
            insights := some [] }
      ∧ (processDocumentWithAI ⟨[], [], [], [], 0⟩ 1 "Here is my freeform analysis." none).analyses
        = ([] : List AnalysisRow)
            ++ [{ documentId := 1, extractedText := none,
                  summary := some "Here is my freeform analysis.", insights := [] }]) :=
  ⟨by decide, by decide,
    c8_nonjson_reply ⟨[], [], [], [], 0⟩ 1 "Here is my freeform analysis."
      (by decide) (by decide)⟩

end SS



